import Mathlib

/-!
Verification of the model presentation state machine of the 3JS-Model-Loader
repository (src/modelClass.js, with src/modelLoader.js as its caller).

The embedding is shallow: the `Model` class of src/modelClass.js becomes a
Lean structure, its methods become pure state transformers, and the external
three.js scene graph is embedded as a finite tree of nodes carrying a name,
a mesh marker, a geometry identifier and a material with the two fields the
code mutates (`transparent` and `opacity`).  Transform mutations performed
through the engine (`lookAt`, `rotateOnAxis`) are recorded as a trace of
engine calls in the order the code issues them, since the code treats the
engine as an opaque collaborator.  Numeric values are rationals (the source
uses JS numbers; every constant in the repository is an integer or the
literal 0.4).
-/

namespace ModelLoader

/-- Triple of numeric components, standing in for THREE.Vector3 as used by
the repository (vista angle triples and camera positions). -/
structure Vec3 where
  x : ℚ
  y : ℚ
  z : ℚ
deriving DecidableEq, Repr

/-- Material state, restricted to the two fields src/modelClass.js mutates:
`material.transparent` and `material.opacity`. -/
structure Material where
  transparent : Bool
  opacity : ℚ
deriving DecidableEq, Repr

mutual
/-- Scene-graph node (THREE.Object3D / THREE.Mesh / THREE.LineSegments).
`isMesh` mirrors the duck-typed `child.isMesh` check of the source;
`geometry` is an opaque identifier for the node's geometry; `material`
carries the two mutated fields; `children` is the ordered child list. -/
inductive Obj : Type where
  | node (name : String) (isMesh : Bool) (geometry : Nat) (material : Material) (children : Forest)
deriving DecidableEq, Repr
/-- Ordered list of scene-graph children (the `children` array of an
Object3D).  A separate mutual inductive rather than `List Obj` so that
structural recursion, decidable equality and kernel evaluation all work. -/
inductive Forest : Type where
  | nil
  | cons (head : Obj) (tail : Forest)
deriving DecidableEq, Repr
end

/-- Name component of a node. -/
def Obj.name : Obj → String
  | .node n _ _ _ _ => n

/-- Mesh marker of a node (`child.isMesh`). -/
def Obj.isMesh : Obj → Bool
  | .node _ m _ _ _ => m

/-- Children of a node. -/
def Obj.children : Obj → Forest
  | .node _ _ _ _ cs => cs

/-- Concatenation of child lists. -/
def Forest.append : Forest → Forest → Forest
  | .nil, f => f
  | .cons c cs, f => .cons c (cs.append f)

/-- World-axis tags for the `rotateOnAxis` calls of `_updateRotation`
(worldAxisX = (1,0,0), worldAxisY = (0,1,0), worldAxisZ = (0,0,1)). -/
inductive Axis : Type where
  | x
  | y
  | z
deriving DecidableEq, Repr

/-- One transform mutation issued to the engine on the model's root object,
in the order the code issues them: `object.lookAt(target)` or
`object.rotateOnAxis(axis, angle)`.  The angle is recorded exactly as the
number the code passes (src/modelClass.js lines 101-108 pass `_vista.x`,
`_vista.y`, `_vista.z` unchanged). -/
inductive RotOp : Type where
  | lookAt (target : Vec3)
  | rotateOnAxis (axis : Axis) (angle : ℚ)
deriving DecidableEq, Repr

/-- Embedding of `_degreesToRadians` (src/modelClass.js lines 86-89):
`degrees * (Math.PI / 180)`, with JS floating point idealised to the reals.
This helper is declared in the source but never invoked by it. -/
noncomputable def degreesToRadians (degrees : ℚ) : ℝ :=
  (degrees : ℝ) * (Real.pi / 180)

/-- Material of the wireframe overlay: `new THREE.LineBasicMaterial(...)`
has the default `transparent: false, opacity: 1` for the two modelled
fields (its color 0xEFEFEF is outside the modelled fields). -/
def wireframeMaterial : Material := { transparent := false, opacity := 1 }

/-- Overlay object built in the alambre "on" branch (src/modelClass.js
lines 179-183): a LineSegments node named "wireframe" whose geometry is
derived from the mesh's geometry (`new THREE.WireframeGeometry(child.geometry)`,
recorded here by carrying the same geometry identifier), with no children.
A LineSegments is not a mesh (`isMesh` is false on it). -/
def wireframeFor (g : Nat) : Obj :=
  Obj.node "wireframe" false g wireframeMaterial Forest.nil

mutual
/-- Embedding of the alambre "on" traversal (src/modelClass.js lines
176-186): `object.traverse` visits a node before its children, and for
every node with `isMesh` appends the freshly built "wireframe" overlay to
the end of its child list.  The traversal also visits the freshly added
overlay, which is a no-op because the overlay is not a mesh and has no
children, so the embedding leaves it unvisited. -/
def addWireframes : Obj → Obj
  | .node n m g mat cs =>
      Obj.node n m g mat
        ((addWireframesForest cs).append
          (if m then Forest.cons (wireframeFor g) Forest.nil else Forest.nil))
/-- Forest part of `addWireframes`. -/
def addWireframesForest : Forest → Forest
  | .nil => .nil
  | .cons c cs => .cons (addWireframes c) (addWireframesForest cs)
end

mutual
/-- Embedding of `Object3D.getObjectByName` as the three.js engine defines
it: depth-first search returning the first node of the subtree (the node
itself first, then its children in order, recursively) whose name matches,
or nothing. -/
def getObjectByName (nm : String) : Obj → Option Obj
  | .node n m g mat cs =>
      if n = nm then some (Obj.node n m g mat cs)
      else getObjectByNameForest nm cs
/-- Forest part of `getObjectByName`: first hit in child order wins. -/
def getObjectByNameForest (nm : String) : Forest → Option Obj
  | .nil => none
  | .cons c cs =>
      match getObjectByName nm c with
      | some r => some r
      | none => getObjectByNameForest nm cs
end

mutual
/-- Embedding of the alambre "off" traversal (src/modelClass.js lines
188-192): for every mesh node, `child.remove(child.getObjectByName('wireframe'))`.
Engine semantics: `remove` deletes its argument from the direct child list
if it occurs there and is a no-op otherwise (also when the lookup returned
nothing); the lookup result is computed, and the removal applied, before
the traversal descends into the (already shortened) child list. -/
def removeWireframes : Obj → Obj
  | .node n m g mat cs =>
      if m then
        Obj.node n m g mat
          (removeWireframesForest (getObjectByName "wireframe" (Obj.node n m g mat cs)) cs)
      else
        Obj.node n m g mat (removeWireframesForest none cs)
/-- Forest part of `removeWireframes`: walk the child list, dropping the
first child equal to the still-pending removal target, and recursing into
every kept child. -/
def removeWireframesForest : Option Obj → Forest → Forest
  | _, .nil => .nil
  | none, .cons c cs => .cons (removeWireframes c) (removeWireframesForest none cs)
  | some t, .cons c cs =>
      if c = t then removeWireframesForest none cs
      else .cons (removeWireframes c) (removeWireframesForest (some t) cs)
end

mutual
/-- Embedding of the material-writing traversals of `_updateModo`: for
every mesh node overwrite `material.transparent` and `material.opacity`
with the given pair; other nodes are untouched. -/
def setMeshMaterials (newMat : Material) : Obj → Obj
  | .node n m g mat cs =>
      Obj.node n m g (if m then newMat else mat) (setMeshMaterialsForest newMat cs)
/-- Forest part of `setMeshMaterials`. -/
def setMeshMaterialsForest (newMat : Material) : Forest → Forest
  | .nil => .nil
  | .cons c cs => .cons (setMeshMaterials newMat c) (setMeshMaterialsForest newMat cs)
end

mutual
/-- Decidable check that every mesh node of the subtree satisfies the given
material predicate. -/
def allMeshMats (p : Material → Bool) : Obj → Bool
  | .node _ m _ mat cs => (if m then p mat else true) && allMeshMatsForest p cs
/-- Forest part of `allMeshMats`. -/
def allMeshMatsForest (p : Material → Bool) : Forest → Bool
  | .nil => true
  | .cons c cs => allMeshMats p c && allMeshMatsForest p cs
end

/-- Embedding of the VISTAS enum (src/modelClass.js lines 16-24), degree
triples exactly as entered. -/
def VISTAS.FRONTAL : Vec3 := ⟨0, 0, 0⟩

/-- VISTAS.TRANSERA. -/
def VISTAS.TRANSERA : Vec3 := ⟨90, 90, 0⟩

/-- VISTAS.IZQUIERO. -/
def VISTAS.IZQUIERO : Vec3 := ⟨90, 90, 90⟩

/-- VISTAS.DERECHA. -/
def VISTAS.DERECHA : Vec3 := ⟨180, 180, 180⟩

/-- VISTAS.ARRIBA. -/
def VISTAS.ARRIBA : Vec3 := ⟨0, 0, 180⟩

/-- VISTAS.ABAJO. -/
def VISTAS.ABAJO : Vec3 := ⟨90, 180, 0⟩

/-- VISTAS.ISOMETRICA. -/
def VISTAS.ISOMETRICA : Vec3 := ⟨30, 30, 0⟩

/-- Presentation-mode flag record (`_modo` and `_modoOldState` of the
source, src/modelClass.js lines 36-52), field names kept from the source
including its spelling `transperante` and the fourth flag `bordes`. -/
structure Modo where
  sombreado : Bool
  alambre : Bool
  transperante : Bool
  bordes : Bool
deriving DecidableEq, Repr

/-- The scene-graph handle the Model controls: the root subtree together
with the trace of transform mutations the core has issued on it. -/
structure Object3D where
  root : Obj
  trace : List RotOp
deriving DecidableEq, Repr

/-- Embedding of the Model class state (src/modelClass.js lines 33-55). -/
structure Model where
  object : Object3D
  vista : Vec3
  modo : Modo
  modoOldState : Modo
  viewChange : Bool
deriving DecidableEq, Repr

/-- Fresh `new THREE.Object3D()`: an empty, non-mesh node with no children.
A plain Object3D has no material; the material field of non-mesh nodes is
never read nor written by any modelled operation. -/
def emptyObject : Obj :=
  Obj.node "" false 0 { transparent := false, opacity := 1 } Forest.nil

/-- Embedding of the Model constructor (src/modelClass.js lines 33-55). -/
def initialModel : Model :=
  { object := { root := emptyObject, trace := [] }
    vista := VISTAS.FRONTAL
    modo := { sombreado := true, alambre := false, transperante := false, bordes := false }
    modoOldState := { sombreado := true, alambre := false, transperante := false, bordes := false }
    viewChange := false }

/-- Embedding of `set object` (src/modelClass.js lines 61-63): replace the
controlled scene node; the newly assigned object carries no core-issued
transform mutations yet. -/
def Model.setObject (s : Model) (obj : Obj) : Model :=
  { s with object := { root := obj, trace := [] } }

/-- Embedding of `set vista` (src/modelClass.js lines 77-80): store the
orientation and raise the dirty flag. -/
def Model.setVista (s : Model) (orientation : Vec3) : Model :=
  { s with vista := orientation, viewChange := true }

/-- Embedding of `set alambre` (src/modelClass.js lines 120-122). -/
def Model.setAlambre (s : Model) (b : Bool) : Model :=
  { s with modo := { s.modo with alambre := b } }

/-- Embedding of `set transparente` (src/modelClass.js lines 138-140). -/
def Model.setTransparente (s : Model) (b : Bool) : Model :=
  { s with modo := { s.modo with transperante := b } }

/-- Embedding of `set sombreado` (src/modelClass.js lines 156-158). -/
def Model.setSombreado (s : Model) (b : Bool) : Model :=
  { s with modo := { s.modo with sombreado := b } }

/-- Embedding of `_updateRotation` (src/modelClass.js lines 95-112): when
the dirty flag is raised, issue `lookAt(camera.position)` followed by
`rotateOnAxis` about world X, Y, Z with the stored vista components passed
unchanged, then clear the flag; otherwise do nothing.  The local `pos`
computed on lines 98-100 of the source is never used and is omitted. -/
def Model.updateRotation (s : Model) (camera : Vec3) : Model :=
  if s.viewChange then
    { s with
        object := { s.object with
          trace := s.object.trace ++
            [RotOp.lookAt camera,
             RotOp.rotateOnAxis Axis.x s.vista.x,
             RotOp.rotateOnAxis Axis.y s.vista.y,
             RotOp.rotateOnAxis Axis.z s.vista.z] }
        viewChange := false }
  else s

/-- Embedding of the alambre block of `_updateModo` (src/modelClass.js
lines 174-195): when the flag differs from its snapshot, add or remove the
wireframe overlays and set the snapshot to the current flag. -/
def Model.updateAlambre (s : Model) : Model :=
  if s.modo.alambre != s.modoOldState.alambre then
    { s with
        object := { s.object with
          root := if s.modo.alambre then addWireframes s.object.root
                  else removeWireframes s.object.root }
        modoOldState := { s.modoOldState with alambre := s.modo.alambre } }
  else s

/-- Embedding of the transparency block of `_updateModo` (src/modelClass.js
lines 204-221): fires only when the flag differs from its snapshot AND
sombreado is currently true; "on" writes transparent=true, opacity=0.4 to
every mesh material, "off" writes transparent=false, opacity=0; the
snapshot is then set to the current flag. -/
def Model.updateTransperante (s : Model) : Model :=
  if (s.modo.transperante != s.modoOldState.transperante) && s.modo.sombreado then
    { s with
        object := { s.object with
          root := if s.modo.transperante then
                    setMeshMaterials { transparent := true, opacity := 0.4 } s.object.root
                  else
                    setMeshMaterials { transparent := false, opacity := 0 } s.object.root }
        modoOldState := { s.modoOldState with transperante := s.modo.transperante } }
  else s

/-- Embedding of the sombreado block of `_updateModo` (src/modelClass.js
lines 223-243): when the flag differs from its snapshot, "off" writes
transparent=true, opacity=0 to every mesh material and force-resets the
transparency snapshot to false; "on" writes transparent=false, opacity=1;
the sombreado snapshot is then set to the current flag. -/
def Model.updateSombreado (s : Model) : Model :=
  if s.modo.sombreado != s.modoOldState.sombreado then
    if !s.modo.sombreado then
      { s with
          object := { s.object with
            root := setMeshMaterials { transparent := true, opacity := 0 } s.object.root }
          modoOldState := { s.modoOldState with transperante := false, sombreado := s.modo.sombreado } }
    else
      { s with
          object := { s.object with
            root := setMeshMaterials { transparent := false, opacity := 1 } s.object.root }
          modoOldState := { s.modoOldState with sombreado := s.modo.sombreado } }
  else s

/-- Embedding of `_updateModo` (src/modelClass.js lines 173-244): the three
blocks run in source order alambre, transparency, sombreado.  The `scene`
parameter of the source method is never read by its body and is omitted. -/
def Model.updateModo (s : Model) : Model :=
  s.updateAlambre.updateTransperante.updateSombreado

/-- Embedding of `updateModel` (src/modelClass.js lines 251-254):
`_updateRotation(camera)` then `_updateModo(scene)` in one synchronous
pass. -/
def Model.updateModel (s : Model) (camera : Vec3) : Model :=
  (s.updateRotation camera).updateModo

/-- Public operations on a Model, as exposed by the class: the property
setters and the per-frame entry point.  `bordes` has no setter in the
source, so none appears here. -/
inductive Op : Type where
  | setObject (obj : Obj)
  | setVista (orientation : Vec3)
  | setAlambre (b : Bool)
  | setTransparente (b : Bool)
  | setSombreado (b : Bool)
  | update (camera : Vec3)

/-- Apply one public operation. -/
def Model.runOp (s : Model) : Op → Model
  | .setObject obj => s.setObject obj
  | .setVista v => s.setVista v
  | .setAlambre b => s.setAlambre b
  | .setTransparente b => s.setTransparente b
  | .setSombreado b => s.setSombreado b
  | .update c => s.updateModel c

/-- Apply a sequence of public operations, left to right. -/
def Model.run (s : Model) (ops : List Op) : Model :=
  ops.foldl Model.runOp s

/-- Camera position used in the concrete scenarios: `createCamera` in
src/modelLoader.js places the camera at (100, 100, 100). -/
def cam0 : Vec3 := ⟨100, 100, 100⟩

/-- Concrete loaded scene used by concrete scenarios: a non-mesh root
group with a single mesh child, its material at the three.js defaults
transparent=false, opacity=1. -/
def sampleScene : Obj :=
  Obj.node "scene" false 0 { transparent := false, opacity := 1 }
    (Forest.cons (Obj.node "cube" true 7 { transparent := false, opacity := 1 } Forest.nil)
      Forest.nil)

mutual
/-- Decidable form of the spec's traversal contract for scenes the loader
hands to the Model: mesh nodes are leaves of the scene graph (geometry-
and material-carrying leaves), and no mesh uses the reserved overlay name
"wireframe". -/
def wellFormedScene : Obj → Bool
  | .node n m _ _ cs =>
      (!m || (decide (cs = Forest.nil) && (n != "wireframe"))) && wellFormedSceneForest cs
/-- Forest part of `wellFormedScene`. -/
def wellFormedSceneForest : Forest → Bool
  | .nil => true
  | .cons c cs => wellFormedScene c && wellFormedSceneForest cs
end

/-- Children of the given name, in order. -/
def Forest.filterByName (nm : String) : Forest → Forest
  | .nil => .nil
  | .cons c cs =>
      if c.name = nm then .cons c (Forest.filterByName nm cs)
      else Forest.filterByName nm cs

mutual
/-- Decidable check that every mesh node carries exactly one child named
"wireframe", namely the overlay derived from that mesh's geometry. -/
def eachMeshOverlaid : Obj → Bool
  | .node _ m g _ cs =>
      (!m || decide (Forest.filterByName "wireframe" cs = Forest.cons (wireframeFor g) Forest.nil)) &&
      eachMeshOverlaidForest cs
/-- Forest part of `eachMeshOverlaid`. -/
def eachMeshOverlaidForest : Forest → Bool
  | .nil => true
  | .cons c cs => eachMeshOverlaid c && eachMeshOverlaidForest cs
end

/-- Appending the empty forest is the identity. -/
theorem Forest.append_nil : (f : Forest) → f.append Forest.nil = f
  | .nil => rfl
  | .cons c cs => congrArg (Forest.cons c) (Forest.append_nil cs)

mutual
/-- Removing wireframe overlays undoes adding them, on any scene whose
meshes are leaves not named "wireframe". -/
theorem remove_add_wireframes (o : Obj) (h : wellFormedScene o = true) :
    removeWireframes (addWireframes o) = o := by
  match o with
  | .node n m g mat cs =>
    rw [wellFormedScene] at h
    simp only [Bool.and_eq_true, Bool.or_eq_true, Bool.not_eq_eq_eq_not, Bool.not_true,
      decide_eq_true_eq, bne_iff_ne, ne_eq] at h
    cases m with
    | false =>
      have hf := remove_add_wireframes_forest cs h.2
      simp [addWireframes, Forest.append_nil, removeWireframes, hf]
    | true =>
      obtain ⟨h1, -⟩ := h
      rcases h1 with h1 | ⟨hnil, hn⟩
      · simp at h1
      · subst hnil
        simp [addWireframes, addWireframesForest, Forest.append, removeWireframes,
          getObjectByName, getObjectByNameForest, wireframeFor, removeWireframesForest, hn]
/-- Forest part of `remove_add_wireframes`. -/
theorem remove_add_wireframes_forest (f : Forest) (h : wellFormedSceneForest f = true) :
    removeWireframesForest none (addWireframesForest f) = f := by
  match f with
  | .nil => rfl
  | .cons c cs =>
    rw [wellFormedSceneForest] at h
    simp only [Bool.and_eq_true] at h
    simp [addWireframesForest, removeWireframesForest,
      remove_add_wireframes c h.1, remove_add_wireframes_forest cs h.2]
end

mutual
/-- After adding wireframes to a well-formed scene, every mesh node carries
exactly the one overlay derived from its geometry. -/
theorem eachMeshOverlaid_add (o : Obj) (h : wellFormedScene o = true) :
    eachMeshOverlaid (addWireframes o) = true := by
  match o with
  | .node n m g mat cs =>
    rw [wellFormedScene] at h
    simp only [Bool.and_eq_true, Bool.or_eq_true, Bool.not_eq_eq_eq_not, Bool.not_true,
      decide_eq_true_eq, bne_iff_ne, ne_eq] at h
    cases m with
    | false =>
      have hf := eachMeshOverlaid_add_forest cs h.2
      simp [addWireframes, Forest.append_nil, eachMeshOverlaid, hf]
    | true =>
      obtain ⟨h1, -⟩ := h
      rcases h1 with h1 | ⟨hnil, hn⟩
      · simp at h1
      · subst hnil
        simp [addWireframes, addWireframesForest, Forest.append, eachMeshOverlaid,
          eachMeshOverlaidForest, Forest.filterByName, wireframeFor, Obj.name]
/-- Forest part of `eachMeshOverlaid_add`. -/
theorem eachMeshOverlaid_add_forest (f : Forest) (h : wellFormedSceneForest f = true) :
    eachMeshOverlaidForest (addWireframesForest f) = true := by
  match f with
  | .nil => rfl
  | .cons c cs =>
    rw [wellFormedSceneForest] at h
    simp only [Bool.and_eq_true] at h
    simp [addWireframesForest, eachMeshOverlaidForest,
      eachMeshOverlaid_add c h.1, eachMeshOverlaid_add_forest cs h.2]
end

mutual
/-- After a material-writing traversal, every mesh material satisfies any
predicate the written material satisfies. -/
theorem allMeshMats_setMeshMaterials (p : Material → Bool) (newMat : Material)
    (hp : p newMat = true) (o : Obj) :
    allMeshMats p (setMeshMaterials newMat o) = true := by
  match o with
  | .node n m g mat cs =>
    have hf := allMeshMatsForest_setMeshMaterials p newMat hp cs
    cases m with
    | false => simp [setMeshMaterials, allMeshMats, hf]
    | true => simp [setMeshMaterials, allMeshMats, hp, hf]
/-- Forest part of `allMeshMats_setMeshMaterials`. -/
theorem allMeshMatsForest_setMeshMaterials (p : Material → Bool) (newMat : Material)
    (hp : p newMat = true) (f : Forest) :
    allMeshMatsForest p (setMeshMaterialsForest newMat f) = true := by
  match f with
  | .nil => rfl
  | .cons c cs =>
    simp [setMeshMaterialsForest, allMeshMatsForest,
      allMeshMats_setMeshMaterials p newMat hp c,
      allMeshMatsForest_setMeshMaterials p newMat hp cs]
end

/-! Projection lemmas for the reconciliation steps. -/

/-- The dirty flag is always clear after `_updateRotation`. -/
theorem updateRotation_viewChange (s : Model) (c : Vec3) :
    (s.updateRotation c).viewChange = false := by
  unfold Model.updateRotation; split
  · rfl
  · rename_i h; simpa using h

/-- `_updateRotation` does not touch the mode flags. -/
theorem updateRotation_modo (s : Model) (c : Vec3) :
    (s.updateRotation c).modo = s.modo := by
  unfold Model.updateRotation; split <;> rfl

/-- `_updateRotation` does not touch the mode snapshot. -/
theorem updateRotation_modoOldState (s : Model) (c : Vec3) :
    (s.updateRotation c).modoOldState = s.modoOldState := by
  unfold Model.updateRotation; split <;> rfl

/-- `_updateRotation` does not touch the scene subtree. -/
theorem updateRotation_root (s : Model) (c : Vec3) :
    (s.updateRotation c).object.root = s.object.root := by
  unfold Model.updateRotation; split <;> rfl

/-- With the dirty flag clear, `_updateRotation` is the identity. -/
theorem updateRotation_noop (s : Model) (c : Vec3) (h : s.viewChange = false) :
    s.updateRotation c = s := by
  simp [Model.updateRotation, h]

/-- The alambre block does not touch the current mode flags. -/
theorem updateAlambre_modo (s : Model) : s.updateAlambre.modo = s.modo := by
  unfold Model.updateAlambre; split <;> rfl

/-- The alambre block does not touch the dirty flag. -/
theorem updateAlambre_viewChange (s : Model) : s.updateAlambre.viewChange = s.viewChange := by
  unfold Model.updateAlambre; split <;> rfl

/-- The alambre block does not touch the transform trace. -/
theorem updateAlambre_trace (s : Model) : s.updateAlambre.object.trace = s.object.trace := by
  unfold Model.updateAlambre; split <;> rfl

/-- After the alambre block, the alambre snapshot equals the current flag. -/
theorem updateAlambre_old_alambre (s : Model) :
    s.updateAlambre.modoOldState.alambre = s.modo.alambre := by
  unfold Model.updateAlambre; split
  · rfl
  · rename_i h
    simp only [bne_iff_ne, ne_eq, Decidable.not_not] at h
    exact h.symm

/-- The alambre block does not touch the transparency snapshot. -/
theorem updateAlambre_old_transperante (s : Model) :
    s.updateAlambre.modoOldState.transperante = s.modoOldState.transperante := by
  unfold Model.updateAlambre; split <;> rfl

/-- The alambre block does not touch the sombreado snapshot. -/
theorem updateAlambre_old_sombreado (s : Model) :
    s.updateAlambre.modoOldState.sombreado = s.modoOldState.sombreado := by
  unfold Model.updateAlambre; split <;> rfl

/-- The alambre block does not touch the bordes snapshot. -/
theorem updateAlambre_old_bordes (s : Model) :
    s.updateAlambre.modoOldState.bordes = s.modoOldState.bordes := by
  unfold Model.updateAlambre; split <;> rfl

/-- With flag and snapshot equal, the alambre block is the identity. -/
theorem updateAlambre_noop (s : Model) (h : s.modo.alambre = s.modoOldState.alambre) :
    s.updateAlambre = s := by
  simp [Model.updateAlambre, h]

/-- The transparency block does not touch the current mode flags. -/
theorem updateTransperante_modo (s : Model) : s.updateTransperante.modo = s.modo := by
  unfold Model.updateTransperante; split <;> rfl

/-- The transparency block does not touch the dirty flag. -/
theorem updateTransperante_viewChange (s : Model) :
    s.updateTransperante.viewChange = s.viewChange := by
  unfold Model.updateTransperante; split <;> rfl

/-- The transparency block does not touch the transform trace. -/
theorem updateTransperante_trace (s : Model) :
    s.updateTransperante.object.trace = s.object.trace := by
  unfold Model.updateTransperante; split <;> rfl

/-- The transparency block does not touch the alambre snapshot. -/
theorem updateTransperante_old_alambre (s : Model) :
    s.updateTransperante.modoOldState.alambre = s.modoOldState.alambre := by
  unfold Model.updateTransperante; split <;> rfl

/-- The transparency block does not touch the sombreado snapshot. -/
theorem updateTransperante_old_sombreado (s : Model) :
    s.updateTransperante.modoOldState.sombreado = s.modoOldState.sombreado := by
  unfold Model.updateTransperante; split <;> rfl

/-- The transparency block does not touch the bordes snapshot. -/
theorem updateTransperante_old_bordes (s : Model) :
    s.updateTransperante.modoOldState.bordes = s.modoOldState.bordes := by
  unfold Model.updateTransperante; split <;> rfl

/-- While sombreado is on, the transparency block leaves the transparency
snapshot equal to the current flag. -/
theorem updateTransperante_old_transperante_of_sombreado (s : Model)
    (h : s.modo.sombreado = true) :
    s.updateTransperante.modoOldState.transperante = s.modo.transperante := by
  unfold Model.updateTransperante; split
  · rfl
  · rename_i hc
    simp only [h, Bool.and_true, bne_iff_ne, ne_eq, Decidable.not_not] at hc
    exact hc.symm

/-- With flag and snapshot equal, the transparency block is the identity. -/
theorem updateTransperante_noop_of_eq (s : Model)
    (h : s.modo.transperante = s.modoOldState.transperante) :
    s.updateTransperante = s := by
  simp [Model.updateTransperante, h]

/-- With sombreado currently off, the transparency block is the identity. -/
theorem updateTransperante_noop_of_not_sombreado (s : Model)
    (h : s.modo.sombreado = false) :
    s.updateTransperante = s := by
  simp [Model.updateTransperante, h]

/-- Firing form of the transparency block, "on" case. -/
theorem updateTransperante_fire_on (s : Model)
    (h1 : s.modo.transperante = true) (h2 : s.modoOldState.transperante = false)
    (h3 : s.modo.sombreado = true) :
    s.updateTransperante =
      { s with
          object := { s.object with
            root := setMeshMaterials { transparent := true, opacity := 0.4 } s.object.root }
          modoOldState := { s.modoOldState with transperante := true } } := by
  simp [Model.updateTransperante, h1, h2, h3]

/-- The sombreado block does not touch the current mode flags. -/
theorem updateSombreado_modo (s : Model) : s.updateSombreado.modo = s.modo := by
  unfold Model.updateSombreado; split
  · split <;> rfl
  · rfl

/-- The sombreado block does not touch the dirty flag. -/
theorem updateSombreado_viewChange (s : Model) :
    s.updateSombreado.viewChange = s.viewChange := by
  unfold Model.updateSombreado; split
  · split <;> rfl
  · rfl

/-- The sombreado block does not touch the transform trace. -/
theorem updateSombreado_trace (s : Model) :
    s.updateSombreado.object.trace = s.object.trace := by
  unfold Model.updateSombreado; split
  · split <;> rfl
  · rfl

/-- The sombreado block does not touch the alambre snapshot. -/
theorem updateSombreado_old_alambre (s : Model) :
    s.updateSombreado.modoOldState.alambre = s.modoOldState.alambre := by
  unfold Model.updateSombreado; split
  · split <;> rfl
  · rfl

/-- The sombreado block does not touch the bordes snapshot. -/
theorem updateSombreado_old_bordes (s : Model) :
    s.updateSombreado.modoOldState.bordes = s.modoOldState.bordes := by
  unfold Model.updateSombreado; split
  · split <;> rfl
  · rfl

/-- After the sombreado block, the sombreado snapshot equals the current
flag. -/
theorem updateSombreado_old_sombreado (s : Model) :
    s.updateSombreado.modoOldState.sombreado = s.modo.sombreado := by
  unfold Model.updateSombreado; split
  · split <;> rfl
  · rename_i h
    simp only [bne_iff_ne, ne_eq, Decidable.not_not] at h
    exact h.symm

/-- While sombreado is currently on, the sombreado block does not touch the
transparency snapshot (the force-reset lives in the "off" branch only). -/
theorem updateSombreado_old_transperante_of_sombreado (s : Model)
    (h : s.modo.sombreado = true) :
    s.updateSombreado.modoOldState.transperante = s.modoOldState.transperante := by
  unfold Model.updateSombreado; split
  · simp [h]
  · rfl

/-- With flag and snapshot equal, the sombreado block is the identity. -/
theorem updateSombreado_noop (s : Model) (h : s.modo.sombreado = s.modoOldState.sombreado) :
    s.updateSombreado = s := by
  simp [Model.updateSombreado, h]

/-- Firing form of the sombreado block, "on" case. -/
theorem updateSombreado_fire_on (s : Model)
    (h1 : s.modo.sombreado = true) (h2 : s.modoOldState.sombreado = false) :
    s.updateSombreado =
      { s with
          object := { s.object with
            root := setMeshMaterials { transparent := false, opacity := 1 } s.object.root }
          modoOldState := { s.modoOldState with sombreado := true } } := by
  simp [Model.updateSombreado, h1, h2]

/-! Composite lemmas for a whole `updateModel` pass. -/

/-- The dirty flag is always clear after a full pass. -/
theorem updateModel_viewChange (s : Model) (c : Vec3) :
    (s.updateModel c).viewChange = false := by
  unfold Model.updateModel Model.updateModo
  rw [updateSombreado_viewChange, updateTransperante_viewChange, updateAlambre_viewChange,
    updateRotation_viewChange]

/-- A full pass does not touch the current mode flags. -/
theorem updateModel_modo (s : Model) (c : Vec3) :
    (s.updateModel c).modo = s.modo := by
  unfold Model.updateModel Model.updateModo
  rw [updateSombreado_modo, updateTransperante_modo, updateAlambre_modo, updateRotation_modo]

/-- After a full pass, the alambre snapshot equals the current flag. -/
theorem updateModel_old_alambre (s : Model) (c : Vec3) :
    (s.updateModel c).modoOldState.alambre = s.modo.alambre := by
  unfold Model.updateModel Model.updateModo
  rw [updateSombreado_old_alambre, updateTransperante_old_alambre, updateAlambre_old_alambre,
    updateRotation_modo]

/-- After a full pass, the sombreado snapshot equals the current flag. -/
theorem updateModel_old_sombreado (s : Model) (c : Vec3) :
    (s.updateModel c).modoOldState.sombreado = s.modo.sombreado := by
  unfold Model.updateModel Model.updateModo
  rw [updateSombreado_old_sombreado, updateTransperante_modo, updateAlambre_modo,
    updateRotation_modo]

/-- After a full pass with sombreado currently on, the transparency
snapshot equals the current flag. -/
theorem updateModel_old_transperante_of_sombreado (s : Model) (c : Vec3)
    (h : s.modo.sombreado = true) :
    (s.updateModel c).modoOldState.transperante = s.modo.transperante := by
  unfold Model.updateModel Model.updateModo
  have hr : (s.updateRotation c).modo = s.modo := updateRotation_modo s c
  have ha : (s.updateRotation c).updateAlambre.modo = s.modo := by
    rw [updateAlambre_modo, hr]
  have hts : (s.updateRotation c).updateAlambre.updateTransperante.modo.sombreado = true := by
    rw [updateTransperante_modo, ha, h]
  rw [updateSombreado_old_transperante_of_sombreado _ hts,
    updateTransperante_old_transperante_of_sombreado _ (by rw [ha, h]), ha]

/-- With all three flags matching their snapshots (transparency only
needed while sombreado is on), `_updateModo` is the identity. -/
theorem updateModo_noop (s : Model)
    (h1 : s.modo.alambre = s.modoOldState.alambre)
    (h2 : s.modo.sombreado = true → s.modo.transperante = s.modoOldState.transperante)
    (h3 : s.modo.sombreado = s.modoOldState.sombreado) :
    s.updateModo = s := by
  unfold Model.updateModo
  rw [updateAlambre_noop s h1]
  cases hsomb : s.modo.sombreado
  · rw [updateTransperante_noop_of_not_sombreado s hsomb, updateSombreado_noop s h3]
  · rw [updateTransperante_noop_of_eq s (h2 hsomb), updateSombreado_noop s h3]

/-! History-level helpers. -/

/-- One step of the history predicate "a vista write is pending": a vista
write raises it, a full pass lowers it, every other public operation leaves
it alone. -/
def vistaPendingStep (b : Bool) : Op → Bool
  | .setVista _ => true
  | .update _ => false
  | _ => b

/-- History predicate: some vista write in the sequence has no later
`updateModel` pass after it. -/
def vistaPending (ops : List Op) : Bool :=
  ops.foldl vistaPendingStep false

/-- The dirty flag evolves exactly as the history predicate's step. -/
theorem runOp_viewChange (s : Model) (op : Op) :
    (s.runOp op).viewChange = vistaPendingStep s.viewChange op := by
  cases op <;>
    simp [Model.runOp, vistaPendingStep, Model.setObject, Model.setVista, Model.setAlambre,
      Model.setTransparente, Model.setSombreado, updateModel_viewChange]

/-- The dirty flag after a run is the fold of the step over the history. -/
theorem run_viewChange : ∀ (ops : List Op) (s : Model),
    (Model.run s ops).viewChange = ops.foldl vistaPendingStep s.viewChange
  | [], _ => rfl
  | op :: ops, s => by
    calc (Model.run s (op :: ops)).viewChange
        = (Model.run (s.runOp op) ops).viewChange := rfl
      _ = ops.foldl vistaPendingStep (s.runOp op).viewChange := run_viewChange ops (s.runOp op)
      _ = ops.foldl vistaPendingStep (vistaPendingStep s.viewChange op) := by
          rw [runOp_viewChange]

/-- A full pass does not touch the bordes snapshot. -/
theorem updateModel_old_bordes (s : Model) (c : Vec3) :
    (s.updateModel c).modoOldState.bordes = s.modoOldState.bordes := by
  unfold Model.updateModel Model.updateModo
  rw [updateSombreado_old_bordes, updateTransperante_old_bordes, updateAlambre_old_bordes,
    updateRotation_modoOldState]

/-- No public operation touches the current bordes flag. -/
theorem runOp_modo_bordes (s : Model) (op : Op) :
    (s.runOp op).modo.bordes = s.modo.bordes := by
  cases op <;>
    simp [Model.runOp, Model.setObject, Model.setVista, Model.setAlambre,
      Model.setTransparente, Model.setSombreado, updateModel_modo]

/-- No public operation touches the bordes snapshot. -/
theorem runOp_old_bordes (s : Model) (op : Op) :
    (s.runOp op).modoOldState.bordes = s.modoOldState.bordes := by
  cases op <;>
    simp [Model.runOp, Model.setObject, Model.setVista, Model.setAlambre,
      Model.setTransparente, Model.setSombreado, updateModel_old_bordes]

/-- No operation sequence touches either bordes field. -/
theorem run_bordes : ∀ (ops : List Op) (s : Model),
    (Model.run s ops).modo.bordes = s.modo.bordes ∧
      (Model.run s ops).modoOldState.bordes = s.modoOldState.bordes
  | [], _ => ⟨rfl, rfl⟩
  | op :: ops, s => by
    have ih := run_bordes ops (s.runOp op)
    constructor
    · calc (Model.run s (op :: ops)).modo.bordes
          = (Model.run (s.runOp op) ops).modo.bordes := rfl
        _ = (s.runOp op).modo.bordes := ih.1
        _ = s.modo.bordes := runOp_modo_bordes s op
    · calc (Model.run s (op :: ops)).modoOldState.bordes
          = (Model.run (s.runOp op) ops).modoOldState.bordes := rfl
        _ = (s.runOp op).modoOldState.bordes := ih.2
        _ = s.modoOldState.bordes := runOp_old_bordes s op

/-- Overwrite the two bordes fields of a state, leaving everything else in
place.  Used to express that reconciliation never reads them. -/
def Model.withBordes (s : Model) (b b' : Bool) : Model :=
  { s with
      modo := { s.modo with bordes := b }
      modoOldState := { s.modoOldState with bordes := b' } }

/-- `_updateRotation` commutes with overwriting the bordes fields. -/
theorem updateRotation_withBordes (s : Model) (c : Vec3) (b b' : Bool) :
    (s.withBordes b b').updateRotation c = (s.updateRotation c).withBordes b b' := by
  obtain ⟨obj, v, m, o, vc⟩ := s
  unfold Model.withBordes Model.updateRotation
  cases vc <;> rfl

/-- The alambre block commutes with overwriting the bordes fields. -/
theorem updateAlambre_withBordes (s : Model) (b b' : Bool) :
    (s.withBordes b b').updateAlambre = s.updateAlambre.withBordes b b' := by
  obtain ⟨obj, v, ⟨ms, ma, mt, mb⟩, ⟨os, oa, ot, ob⟩, vc⟩ := s
  unfold Model.withBordes Model.updateAlambre
  cases ma <;> cases oa <;> rfl

/-- The transparency block commutes with overwriting the bordes fields. -/
theorem updateTransperante_withBordes (s : Model) (b b' : Bool) :
    (s.withBordes b b').updateTransperante = s.updateTransperante.withBordes b b' := by
  obtain ⟨obj, v, ⟨ms, ma, mt, mb⟩, ⟨os, oa, ot, ob⟩, vc⟩ := s
  unfold Model.withBordes Model.updateTransperante
  cases mt <;> cases ot <;> cases ms <;> rfl

/-- The sombreado block commutes with overwriting the bordes fields. -/
theorem updateSombreado_withBordes (s : Model) (b b' : Bool) :
    (s.withBordes b b').updateSombreado = s.updateSombreado.withBordes b b' := by
  obtain ⟨obj, v, ⟨ms, ma, mt, mb⟩, ⟨os, oa, ot, ob⟩, vc⟩ := s
  unfold Model.withBordes Model.updateSombreado
  cases ms <;> cases os <;> rfl

/-- A full pass commutes with overwriting the bordes fields. -/
theorem updateModel_withBordes (s : Model) (c : Vec3) (b b' : Bool) :
    (s.withBordes b b').updateModel c = (s.updateModel c).withBordes b b' := by
  unfold Model.updateModel Model.updateModo
  rw [updateRotation_withBordes, updateAlambre_withBordes, updateTransperante_withBordes,
    updateSombreado_withBordes]

/-- Scene subtree after a firing sombreado "on" transition: every mesh
material rewritten to non-transparent, opacity 1. -/
theorem updateSombreado_fire_on_root (s : Model)
    (h1 : s.modo.sombreado = true) (h2 : s.modoOldState.sombreado = false) :
    s.updateSombreado.object.root
      = setMeshMaterials { transparent := false, opacity := 1 } s.object.root := by
  rw [updateSombreado_fire_on s h1 h2]

/-- Firing form of the alambre block, "on" case. -/
theorem updateAlambre_fire_on (s : Model)
    (h1 : s.modo.alambre = true) (h2 : s.modoOldState.alambre = false) :
    s.updateAlambre =
      { s with
          object := { s.object with root := addWireframes s.object.root }
          modoOldState := { s.modoOldState with alambre := true } } := by
  simp [Model.updateAlambre, h1, h2]

/-- Firing form of the alambre block, "off" case. -/
theorem updateAlambre_fire_off (s : Model)
    (h1 : s.modo.alambre = false) (h2 : s.modoOldState.alambre = true) :
    s.updateAlambre =
      { s with
          object := { s.object with root := removeWireframes s.object.root }
          modoOldState := { s.modoOldState with alambre := false } } := by
  simp [Model.updateAlambre, h1, h2]

/-! Concrete scenario states shared by the concrete theorems. -/

/-- State reached from a fresh Model by: assign a loaded scene, disable
shading, run one pass. -/
def disabledRun : Model :=
  Model.run initialModel [Op.setObject sampleScene, Op.setSombreado false, Op.update cam0]

/-- State reached from `disabledRun` by: set transparent=true, set
shaded=true, run one pass. -/
def reenableRun : Model :=
  Model.run initialModel
    [Op.setObject sampleScene, Op.setSombreado false, Op.update cam0,
     Op.setTransparente true, Op.setSombreado true, Op.update cam0]

/-! Claim theorems. -/

/-- C1 (counterexample): after disabling shading, a pass, then setting
transparent=true and shaded=true and one more pass, the mesh materials are
NOT transparent with opacity 0.4 as the claim states: they are
non-transparent with opacity 1, because the sombreado "on" branch runs
after the transparency branch and rewrites every mesh material. -/
theorem c1_counterexample_reenable :
    allMeshMats (fun mat => decide (mat = { transparent := true, opacity := 0.4 }))
        reenableRun.object.root = false ∧
    allMeshMats (fun mat => decide (mat = { transparent := false, opacity := 1 }))
        reenableRun.object.root = true := by
  decide

/-- C1 (amended): from a state whose shading was disabled and reconciled
(current sombreado false, snapshots sombreado=false and transperante=false),
setting transparent=true and shaded=true and running a single `updateModel`
pass does fire the pending transparency transition (the transparency
snapshot becomes true), but the sombreado "on" transition runs afterwards
and rewrites every mesh material, so after the pass every mesh material is
non-transparent with opacity 1, not transparent with opacity 0.4. -/
theorem c1_amended_reenable_pass (s : Model) (c : Vec3)
    (_h1 : s.modo.sombreado = false) (h2 : s.modoOldState.sombreado = false)
    (_h3 : s.modoOldState.transperante = false) :
    (((s.setTransparente true).setSombreado true).updateModel c).modoOldState.transperante
        = true ∧
    allMeshMats (fun mat => decide (mat = { transparent := false, opacity := 1 }))
        ((((s.setTransparente true).setSombreado true).updateModel c).object.root) = true := by
  constructor
  · exact updateModel_old_transperante_of_sombreado
      ((s.setTransparente true).setSombreado true) c rfl
  · show allMeshMats _
      (((((((s.setTransparente true).setSombreado true).updateRotation
        c).updateAlambre).updateTransperante).updateSombreado).object.root) = true
    have hxm : (((s.setTransparente true).setSombreado true).updateRotation c).modo
        = ((s.setTransparente true).setSombreado true).modo :=
      updateRotation_modo _ c
    have hxo : (((s.setTransparente true).setSombreado true).updateRotation c).modoOldState
        = s.modoOldState :=
      updateRotation_modoOldState _ c
    have hy_s : ((((s.setTransparente true).setSombreado true).updateRotation
        c).updateAlambre).modo.sombreado = true := by
      rw [updateAlambre_modo, hxm]; rfl
    have hy_os : ((((s.setTransparente true).setSombreado true).updateRotation
        c).updateAlambre).modoOldState.sombreado = false := by
      rw [updateAlambre_old_sombreado, hxo]; exact h2
    have hz_s : (((((s.setTransparente true).setSombreado true).updateRotation
        c).updateAlambre).updateTransperante).modo.sombreado = true := by
      rw [updateTransperante_modo]; exact hy_s
    have hz_os : (((((s.setTransparente true).setSombreado true).updateRotation
        c).updateAlambre).updateTransperante).modoOldState.sombreado = false := by
      rw [updateTransperante_old_sombreado]; exact hy_os
    rw [updateSombreado_fire_on_root _ hz_s hz_os]
    exact allMeshMats_setMeshMaterials _ _ (by decide) _

/-- Witness for C1 (amended) at the concrete scenario state. -/
theorem c1_amended_reenable_pass_witness :
    disabledRun.modo.sombreado = false ∧ disabledRun.modoOldState.sombreado = false ∧
    disabledRun.modoOldState.transperante = false ∧
    ((((disabledRun.setTransparente true).setSombreado true).updateModel
        cam0).modoOldState.transperante = true ∧
      allMeshMats (fun mat => decide (mat = { transparent := false, opacity := 1 }))
        ((((disabledRun.setTransparente true).setSombreado true).updateModel
          cam0).object.root) = true) :=
  ⟨rfl, rfl, rfl, c1_amended_reenable_pass disabledRun cam0 rfl rfl rfl⟩

/-- C2: the claim (and the source's own documentation on src/modelClass.js
lines 13-14) says the rotation applied about each axis is the stored degree
component converted to radians (degrees times pi over 180), but
`_updateRotation` passes the raw stored degree values to `rotateOnAxis`
and never calls `_degreesToRadians`.  At the failing input
setVista(ISOMETRICA) = (30, 30, 0) followed by updateModel, the issued
rotation angles are the raw values 30, 30, 0, and 30 is not the radian
conversion of 30 degrees. -/
theorem c2_code_bug_raw_degrees :
    (Model.run initialModel [Op.setVista VISTAS.ISOMETRICA, Op.update cam0]).object.trace =
      [RotOp.lookAt cam0, RotOp.rotateOnAxis Axis.x 30, RotOp.rotateOnAxis Axis.y 30,
        RotOp.rotateOnAxis Axis.z 0] ∧
    degreesToRadians 30 ≠ (30 : ℝ) := by
  refine ⟨rfl, ?_⟩
  unfold degreesToRadians
  intro hc
  push_cast at hc
  have hp := Real.pi_lt_d2
  linarith

/-- C3 (counterexample): after the re-enable scenario, the transparency
snapshot in `modoOldState` is true while every mesh material is
non-transparent with opacity 1, i.e. the transparency mode the snapshot
claims was realized is absent from the scene graph. -/
theorem c3_counterexample_snapshot_mismatch :
    reenableRun.modoOldState.transperante = true ∧
    allMeshMats (fun mat => decide (mat = { transparent := true, opacity := 0.4 }))
        reenableRun.object.root = false := by
  decide

/-- C3 (amended): the per-flag transition discipline holds — each block is
the identity when its flag equals its snapshot, and each block sets its own
snapshot to the current flag after firing (the transparency snapshot
tracking holds whenever sombreado is on; the sombreado "off" branch
additionally force-resets the transparency snapshot).  The realized-state
half of the original claim fails, as the C3 counterexample shows. -/
theorem c3_amended_transition_discipline (s : Model) :
    (s.modo.alambre = s.modoOldState.alambre → s.updateAlambre = s) ∧
    (s.modo.transperante = s.modoOldState.transperante → s.updateTransperante = s) ∧
    (s.modo.sombreado = s.modoOldState.sombreado → s.updateSombreado = s) ∧
    s.updateAlambre.modoOldState.alambre = s.modo.alambre ∧
    (s.modo.sombreado = true →
      s.updateTransperante.modoOldState.transperante = s.modo.transperante) ∧
    s.updateSombreado.modoOldState.sombreado = s.modo.sombreado :=
  ⟨updateAlambre_noop s, updateTransperante_noop_of_eq s, updateSombreado_noop s,
    updateAlambre_old_alambre s, updateTransperante_old_transperante_of_sombreado s,
    updateSombreado_old_sombreado s⟩

/-- Witness for C3 (amended) at the fresh Model state. -/
theorem c3_amended_transition_discipline_witness :
    initialModel.updateAlambre = initialModel ∧
    initialModel.updateTransperante = initialModel ∧
    initialModel.updateSombreado = initialModel ∧
    initialModel.updateAlambre.modoOldState.alambre = initialModel.modo.alambre ∧
    initialModel.updateTransperante.modoOldState.transperante
        = initialModel.modo.transperante ∧
    initialModel.updateSombreado.modoOldState.sombreado = initialModel.modo.sombreado :=
  ⟨(c3_amended_transition_discipline initialModel).1 rfl,
    (c3_amended_transition_discipline initialModel).2.1 rfl,
    (c3_amended_transition_discipline initialModel).2.2.1 rfl,
    (c3_amended_transition_discipline initialModel).2.2.2.1,
    (c3_amended_transition_discipline initialModel).2.2.2.2.1 rfl,
    (c3_amended_transition_discipline initialModel).2.2.2.2.2⟩

/-- C4: calling `updateModel` twice in succession with no intervening
setter produces, after the second call, a state identical to the state
after the first call — for every Model state (so in particular every
reachable one) and any camera positions: no duplicate overlays, no
repeated rotation, no material rewrite. -/
theorem c4_updateModel_idempotent (s : Model) (c c' : Vec3) :
    (s.updateModel c).updateModel c' = s.updateModel c := by
  have hv := updateModel_viewChange s c
  have h1 : (s.updateModel c).modo.alambre = (s.updateModel c).modoOldState.alambre := by
    rw [updateModel_old_alambre, updateModel_modo]
  have h3 : (s.updateModel c).modo.sombreado = (s.updateModel c).modoOldState.sombreado := by
    rw [updateModel_old_sombreado, updateModel_modo]
  have h2 : (s.updateModel c).modo.sombreado = true →
      (s.updateModel c).modo.transperante = (s.updateModel c).modoOldState.transperante := by
    intro hs
    rw [updateModel_modo] at hs
    rw [updateModel_modo, updateModel_old_transperante_of_sombreado s c hs]
  show ((s.updateModel c).updateRotation c').updateModo = s.updateModel c
  rw [updateRotation_noop _ _ hv, updateModo_noop _ h1 h2 h3]

/-- C5: whenever the shaded flag is currently false, the transparency block
of `_updateModo` is the identity on the whole state — in particular every
mesh material's transparent and opacity fields are left unchanged, and the
transparency snapshot keeps recording the pending change. -/
theorem c5_transparency_suppressed (s : Model) (h : s.modo.sombreado = false) :
    s.updateTransperante = s :=
  updateTransperante_noop_of_not_sombreado s h

/-- Witness for C5: pending transparency change with shading off. -/
theorem c5_transparency_suppressed_witness :
    (((initialModel.setObject sampleScene).setSombreado false).setTransparente
        true).modo.sombreado = false ∧
    (((initialModel.setObject sampleScene).setSombreado false).setTransparente
        true).updateTransperante
      = ((initialModel.setObject sampleScene).setSombreado false).setTransparente true :=
  ⟨rfl, c5_transparency_suppressed _ rfl⟩

/-- C6: with the dirty flag set, `_updateRotation` issues exactly, in this
order: lookAt toward the camera position, then rotateOnAxis about world X
by the stored x-component, then world Y, then world Z — composing X then Y
then Z, never the reverse. -/
theorem c6_rotation_order (s : Model) (c : Vec3) (h : s.viewChange = true) :
    (s.updateRotation c).object.trace =
      s.object.trace ++
        [RotOp.lookAt c, RotOp.rotateOnAxis Axis.x s.vista.x,
          RotOp.rotateOnAxis Axis.y s.vista.y, RotOp.rotateOnAxis Axis.z s.vista.z] := by
  simp [Model.updateRotation, h]

/-- Witness for C6 at a concrete vista. -/
theorem c6_rotation_order_witness :
    (initialModel.setVista VISTAS.ISOMETRICA).viewChange = true ∧
    ((initialModel.setVista VISTAS.ISOMETRICA).updateRotation cam0).object.trace =
      [] ++ [RotOp.lookAt cam0, RotOp.rotateOnAxis Axis.x 30, RotOp.rotateOnAxis Axis.y 30,
        RotOp.rotateOnAxis Axis.z 0] :=
  ⟨rfl, c6_rotation_order (initialModel.setVista VISTAS.ISOMETRICA) cam0 rfl⟩

/-- C7: the dirty flag is true after a sequence of public operations
exactly when a vista write has no later `updateModel` pass after it, and
reconciliation with the flag unset returns the state unchanged (no side
effect on the transform or anything else). -/
theorem c7_dirty_flag_iff :
    (∀ ops : List Op, (Model.run initialModel ops).viewChange = vistaPending ops) ∧
    (∀ (s : Model) (c : Vec3), s.viewChange = false → s.updateRotation c = s) := by
  constructor
  · intro ops
    rw [run_viewChange]
    rfl
  · exact updateRotation_noop

/-- Witness for C7: one pending write, and a clean-flag no-op. -/
theorem c7_dirty_flag_iff_witness :
    (Model.run initialModel [Op.setVista VISTAS.ABAJO]).viewChange
        = vistaPending [Op.setVista VISTAS.ABAJO] ∧
    initialModel.updateRotation cam0 = initialModel :=
  ⟨c7_dirty_flag_iff.1 [Op.setVista VISTAS.ABAJO],
    c7_dirty_flag_iff.2 initialModel cam0 rfl⟩

/-- C8: a full `updateModel` pass on a freshly constructed Model is the
identity — no rotation is issued, no material or child list is touched
(and, the embedding being total, no exception is raised). -/
theorem c8_fresh_pass_noop (c : Vec3) : initialModel.updateModel c = initialModel :=
  rfl

/-- C9: on a scene whose meshes are leaves not named "wireframe" (the
spec's traversal contract), the alambre "on" transition gives every mesh
node exactly one overlay child named "wireframe" derived from that mesh's
geometry, and a subsequent "off" transition removes exactly those children,
restoring the scene subtree exactly as it was. -/
theorem c9_wireframe_round_trip (s : Model)
    (h : wellFormedScene s.object.root = true) (h2 : s.modoOldState.alambre = false) :
    eachMeshOverlaid ((s.setAlambre true).updateAlambre).object.root = true ∧
    ((((s.setAlambre true).updateAlambre).setAlambre false).updateAlambre).object.root
        = s.object.root := by
  rw [updateAlambre_fire_on (s.setAlambre true) rfl h2]
  constructor
  · exact eachMeshOverlaid_add _ h
  · rw [updateAlambre_fire_off _ rfl rfl]
    exact remove_add_wireframes _ h

/-- Witness for C9 at the concrete sample scene. -/
theorem c9_wireframe_round_trip_witness :
    wellFormedScene (initialModel.setObject sampleScene).object.root = true ∧
    ((initialModel.setObject sampleScene).modoOldState.alambre = false ∧
      (eachMeshOverlaid (((initialModel.setObject
          sampleScene).setAlambre true).updateAlambre).object.root = true ∧
        (((((initialModel.setObject sampleScene).setAlambre
          true).updateAlambre).setAlambre false).updateAlambre).object.root
            = (initialModel.setObject sampleScene).object.root)) :=
  ⟨by decide, rfl, c9_wireframe_round_trip (initialModel.setObject sampleScene) (by decide) rfl⟩

/-- C10: the fourth flag `bordes` is initialized to false in both the
current mode and the snapshot, no public operation ever changes either
copy (there is no setter for it), and a full `updateModel` pass commutes
with overwriting both copies arbitrarily — reconciliation never reads
them, so they cannot affect the scene graph in any reachable state. -/
theorem c10_bordes_inert :
    (∀ ops : List Op, (Model.run initialModel ops).modo.bordes = false ∧
        (Model.run initialModel ops).modoOldState.bordes = false) ∧
    (∀ (s : Model) (c : Vec3) (b b' : Bool),
        (s.withBordes b b').updateModel c = (s.updateModel c).withBordes b b') := by
  constructor
  · intro ops
    exact ⟨(run_bordes ops initialModel).1, (run_bordes ops initialModel).2⟩
  · intro s c b b'
    exact updateModel_withBordes s c b b'

end ModelLoader
